import Mathlib

/-!
# Verification of the collaborative AI code-generator backend

Shallow embedding of the Express/Socket.IO backend (`src/backend/server.js`,
`src/backend/routes/templates.routes.js`, `src/backend/types/index.js`) and of
the message-cache contract of the spec.  External effects (the JWT library, the
Gemini AI proxy, Redis, MongoDB) are modelled by oracle values passed to the
handlers; each handler is a pure function producing the ordered list of
observable events it performs (store attempts, broadcasts, error emits,
database writes), mirroring the statement order of the JavaScript source.

Modelling conventions:
* JavaScript strings are Lean `String`s; the JS string primitives the source
  uses (`split`, `trim`, `toLowerCase`, `substring`, `startsWith`, `includes`,
  first-occurrence `replace`) are implemented below over `List Char` by
  structural recursion, so every definition reduces on concrete inputs.
* `JSON.stringify` of an AI payload object is abstracted by keeping the
  structured payload in the message body (serialisation is injective and no
  claim depends on the concrete wire text).
* `new Date().toISOString()` is abstracted by a single oracle-supplied
  timestamp string `now` used for every timestamp taken while handling one
  inbound event.
-/

namespace Backend

/-- `chopPat cs pat`: when `pat` starts `cs`, the remainder of `cs` after
`pat`; otherwise `none`.  (The JS string primitives below are implemented
over `List Char` by structural recursion so that every definition reduces on
concrete inputs.) -/
def chopPat : List Char → List Char → Option (List Char)
  | cs, [] => some cs
  | [], _ :: _ => none
  | c :: cs, p :: ps => if c = p then chopPat cs ps else none

/-- Fuel-driven worker for `jsSplitOn`: scan for the separator, cutting a
piece at each match.  At least one character is consumed per unit of fuel, so
fuel equal to the string length suffices. -/
def splitOnGo (pat : List Char) : Nat → List Char → List Char → List (List Char)
  | _, [], acc => [acc.reverse]
  | 0, cs, acc => [acc.reverse ++ cs]
  | fuel + 1, c :: cs, acc =>
      match chopPat (c :: cs) pat with
      | some rest => acc.reverse :: splitOnGo pat fuel rest []
      | none => splitOnGo pat fuel cs (c :: acc)

/-- JS `s.split(sep)` for a non-empty string separator: the pieces between
occurrences of `sep`, empty pieces included (e.g. `"a;;b" ↦ ["a","","b"]`,
`"a;" ↦ ["a",""]`, no occurrence `↦ [s]`). -/
def jsSplitOn (s sep : String) : List String :=
  (splitOnGo sep.data s.data.length s.data []).map List.asString

/-- Strip leading whitespace from a character list (worker for `jsTrim`). -/
def trimLeftChars : List Char → List Char
  | [] => []
  | c :: cs => if c.isWhitespace then trimLeftChars cs else c :: cs

/-- JS `s.trim()`: strip whitespace from both ends (the JS whitespace class
is approximated by `Char.isWhitespace`; every string a claim touches is
plain ASCII). -/
def jsTrim (s : String) : String :=
  (trimLeftChars (trimLeftChars s.data.reverse).reverse).asString

/-- JS `s.toLowerCase()`, restricted to the ASCII range of `Char.toLower`
(the classification words compared against are ASCII). -/
def jsToLower (s : String) : String :=
  (s.data.map Char.toLower).asString

/-- JS `s.substring(0, n)`: the first `n` characters (UTF-16 unit counting is
abstracted to character counting).  Implemented over the character list so
that it reduces in `n` steps bounded by the string length. -/
def jsTake (s : String) (n : Nat) : String :=
  ⟨s.data.take n⟩

/-- JS `s.startsWith(pat)`. -/
def jsStartsWith (s pat : String) : Bool :=
  (chopPat s.data pat.data).isSome

/-- JS `s.includes(pat)` for a non-empty pattern: the split yields more than
one piece exactly when the pattern occurs. -/
def strIncludes (s pat : String) : Bool :=
  (jsSplitOn s pat).length != 1

/-- JS `s.replace(pat, repl)` with a string pattern replaces only the FIRST
occurrence (unlike Lean's `String.replace`, which replaces all). -/
def replaceFirst (s pat repl : String) : String :=
  match jsSplitOn s pat with
  | [] => s
  | [a] => a
  | a :: rest => a ++ repl ++ String.intercalate pat rest

/-- A message sender as built by `server.js` (`{_id, email}`; `socket.user`
carries the decoded token fields, the AI sender is the literal object
`{_id: 'ai', email: 'AI Assistant'}`). -/
structure Sender where
  id : String
  email : String
deriving DecidableEq, Repr

/-- The reserved AI sender object of `server.js` (lines 364-367 etc.). -/
def aiSender : Sender := ⟨"ai", "AI Assistant"⟩

/-- A project file tree: mapping of path to file contents.  `server.js` only
inspects `typeof fileTree === 'object'` and `Object.keys(fileTree).length > 0`;
nesting below the top level is never examined, so entries are kept flat. -/
abbrev FileTree := List (String × String)

/-- The structured content of an AI message body before `JSON.stringify`:
the normalised `parsedResult` of `handleAIRequest` (`text` always present
after normalisation, `fileTree` optional). -/
structure AIPayload where
  text : String
  fileTree : Option FileTree
deriving DecidableEq, Repr

/-- A message body: either the raw text of a client chat message, or the
(stringified, here kept structured) AI payload. -/
inductive MsgBody where
  | text (s : String)
  | payload (p : AIPayload)
deriving DecidableEq, Repr

/-- A chat message as stored and broadcast (`messageWithTimestamp`,
`processingMessage`, `aiResponse`, `errorMessage` in `server.js`). -/
structure ChatMsg where
  body : MsgBody
  sender : Sender
  timestamp : String
deriving DecidableEq, Repr

/-- Observable events performed by the relay handlers, in program order:
* `storeAttempt room msg ok` — a `storeMessage(room, msg)` call and whether the
  backing store succeeded (failures are caught and logged in the source);
* `broadcastOthers sock room msg` — `socket.broadcast.to(room).emit(...)` from
  socket `sock` (delivered to the room minus the sender);
* `broadcastRoom room msg` — `io.to(room).emit(...)` (delivered to the whole
  room);
* `emitError type` — `socket.emit('error', {type, ...})` back to the sender;
* `callAI prompt` — invocation of the AI proxy `generateResult(prompt)`;
* `dbUpdate projectId ft` — successful
  `projectModel.findByIdAndUpdate(projectId, {$set: {fileTree: ft}})`. -/
inductive Event where
  | storeAttempt (room : String) (msg : ChatMsg) (ok : Bool)
  | broadcastOthers (sock : String) (room : String) (msg : ChatMsg)
  | broadcastRoom (room : String) (msg : ChatMsg)
  | emitError (etype : String)
  | callAI (prompt : String)
  | dbUpdate (projectId : String) (ft : FileTree)
deriving DecidableEq, Repr

/-- Connection-scoped context established by the Socket.IO middleware:
the socket identity, the verified user (`socket.user`), the project id from the
handshake query, and whether `projectModel.findById` resolved a project
(`socket.project` truthiness). -/
structure SocketCtx where
  sockId : String
  user : Sender
  projectId : String
  projectFound : Bool
deriving Repr

/-- Outcome of interpreting the proxy result
(`typeof result === 'string' ? JSON.parse(result) : result`):
the parse throws; it yields a non-object (or null); or it yields an object
with an optional truthy `text` and an optional object-valued `fileTree`
(a `fileTree` field holding a non-object value behaves as absent and is
folded into `none`; an empty object is `some []`; a present `text` that is the
empty string is falsy in JS and is handled by the normalisation below). -/
inductive ParseOutcome where
  | parseFail
  | notObject
  | obj (text : Option String) (fileTree : Option FileTree)
deriving DecidableEq, Repr

/-- Outcome of `Promise.race([generateResult(safePrompt), aiTimeout])`:
the 45-second timeout fires, the generation rejects with some error message,
or it resolves and the result is parsed. -/
inductive GenOutcome where
  | timeout
  | err (msg : String)
  | ok (po : ParseOutcome)
deriving DecidableEq, Repr

/-- Oracle for the external effects consulted while handling one
`project-message` event.  Each `storeMessage` call site gets its own failure
flag; `gen` is the AI proxy outcome; `dbUpdateFails` is whether
`findByIdAndUpdate` rejects. -/
structure Oracle where
  storeUserFails : Bool
  storeInterimFails : Bool
  storeTerminalFails : Bool
  dbUpdateFails : Bool
  gen : GenOutcome
deriving Repr

/-- Build an AI-sender message (the `{message, sender: {_id:'ai', email:'AI
Assistant'}, timestamp}` objects of `handleAIRequest`). -/
def mkAIMsg (p : AIPayload) (now : String) : ChatMsg :=
  ⟨MsgBody.payload p, aiSender, now⟩

/-- The interim "working" notice payload (`processingMessage`). -/
def interimPayload : AIPayload :=
  ⟨"I'm thinking about your request... This may take a moment.", none⟩

/-- The synthetic error payload built in the catch block of `handleAIRequest`. -/
def errorPayload (emsg : String) : AIPayload :=
  ⟨"Error: " ++ emsg ++ ". Please try again with a more specific prompt.", none⟩

/-- The message of the error the 45-second `aiTimeout` promise rejects with. -/
def timeoutMsg : String := "AI request timed out after 45 seconds"

/-- Normalisation of the parsed AI result, mirroring `handleAIRequest`
lines 394-408: a failed `JSON.parse` falls back to a fixed text; a non-object
result is replaced by a fixed text; a missing (or falsy) `text` field is
replaced by a default mentioning the prompt. -/
def normalizeParsed (safePrompt : String) : ParseOutcome → AIPayload
  | ParseOutcome.parseFail =>
      ⟨"AI generated a response but it couldn't be parsed properly.", none⟩
  | ParseOutcome.notObject =>
      ⟨"AI generated an invalid response format.", none⟩
  | ParseOutcome.obj text fileTree =>
      let t := match text with
        | some t => if t = "" then none else some t
        | none => none
      match t with
      | some t => ⟨t, fileTree⟩
      | none =>
          ⟨"I've processed your request for \"" ++ safePrompt ++
            "\" but couldn't generate detailed text.", fileTree⟩

/-- The catch block of `handleAIRequest` (lines 449-470): store the synthetic
error message (failure swallowed) and broadcast it to the whole room. -/
def aiErrorEvents (roomId : String) (o : Oracle) (now : String)
    (emsg : String) : List Event :=
  let em := mkAIMsg (errorPayload emsg) now
  [Event.storeAttempt roomId em (!o.storeTerminalFails),
   Event.broadcastRoom roomId em]

/-- The file-tree update tail of `handleAIRequest` (`server.js` 428-447): a
`fileTree` that is a non-empty object, on a socket whose project was resolved
at connection time, is written to the project record; a rejected write is
caught and surfaced as an `error` event to the triggering socket only. -/
def fileTreeEvents (ctx : SocketCtx) (o : Oracle) (ft? : Option FileTree) :
    List Event :=
  match ft? with
  | some ft =>
      if ft ≠ [] ∧ ctx.projectFound then
        if o.dbUpdateFails then [Event.emitError "UPDATE_FILE_TREE_ERROR"]
        else [Event.dbUpdate ctx.projectId ft]
      else []
  | none => []

/-- `handleAIRequest(socket, roomId, message)` (`server.js` lines 358-471) as a
trace of events.  Program order: build and store the interim notice (store
failure swallowed), broadcast it to the whole room; strip the first `@ai`
occurrence and trim to obtain the prompt; an empty prompt throws into the
catch block; otherwise race the proxy call against the 45 s timeout; on
rejection (timeout or generation error) the catch block emits the synthetic
error; on success the normalised reply is stored and broadcast, and when it
carries a non-empty object `fileTree` and the socket resolved a project at
connection time, the project record is updated (a rejected update is caught
and surfaced as an `error` event to the triggering socket only). -/
def handleAIRequest (ctx : SocketCtx) (roomId : String) (o : Oracle)
    (now : String) (message : String) : List Event :=
  let interim := mkAIMsg interimPayload now
  let pre := [Event.storeAttempt roomId interim (!o.storeInterimFails),
              Event.broadcastRoom roomId interim]
  let prompt := jsTrim (replaceFirst message "@ai" "")
  if prompt = "" then
    pre ++ aiErrorEvents roomId o now "Empty prompt provided"
  else
    let safePrompt := jsTake prompt 1000
    match o.gen with
    | GenOutcome.timeout =>
        pre ++ [Event.callAI safePrompt] ++ aiErrorEvents roomId o now timeoutMsg
    | GenOutcome.err m =>
        pre ++ [Event.callAI safePrompt] ++ aiErrorEvents roomId o now m
    | GenOutcome.ok po =>
        let parsed := normalizeParsed safePrompt po
        let resp := mkAIMsg parsed now
        pre ++ [Event.callAI safePrompt,
                Event.storeAttempt roomId resp (!o.storeTerminalFails),
                Event.broadcastRoom roomId resp] ++
        fileTreeEvents ctx o parsed.fileTree

/-- The `socket.on('project-message')` handler (`server.js` lines 294-334) as
a trace of events.  `data` is `data?.message` (`none` models a missing `data`
object or a falsy `message` field, both rejected with `INVALID_MESSAGE`); the
body is truncated to 10000 characters, timestamped, attributed to
`socket.user`, stored (failure swallowed), broadcast to every OTHER socket of
the room, and handed to `handleAIRequest` when it contains `@ai`. -/
def projectMessage (ctx : SocketCtx) (roomId : String) (o : Oracle)
    (now : String) (data : Option String) : List Event :=
  match data with
  | none => [Event.emitError "INVALID_MESSAGE"]
  | some raw =>
      let message := jsTake raw 10000
      let m : ChatMsg := ⟨MsgBody.text message, ctx.user, now⟩
      [Event.storeAttempt roomId m (!o.storeUserFails),
       Event.broadcastOthers ctx.sockId roomId m] ++
      (if strIncludes message "@ai" then handleAIRequest ctx roomId o now message
       else [])

/-- Delivery semantics of the two Socket.IO broadcast primitives used by the
relay: `socket.broadcast.to(room)` reaches every member of the room except the
emitting socket; `io.to(room)` reaches every member.  Point-to-point emits back
to the handling socket and non-broadcast events deliver to no room member. -/
def deliveredTo (members : List String) (e : Event) (target : String) : Bool :=
  match e with
  | Event.broadcastOthers sock _ _ => target ∈ members && target != sock
  | Event.broadcastRoom _ _ => target ∈ members
  | _ => false

/-- The projects database restricted to file trees: project id ↦ stored file
tree (if any).  `runDb` replays the successful `findByIdAndUpdate` writes of a
trace. -/
def runDb (db : String → Option FileTree) : List Event → (String → Option FileTree)
  | [] => db
  | Event.dbUpdate pid ft :: rest =>
      runDb (fun p => if p = pid then some ft else db p) rest
  | _ :: rest => runDb db rest

/-- Erase the backing-store outcome recorded on a `storeAttempt` event,
keeping everything observable to clients.  Two traces equal after this erasure
deliver exactly the same messages, errors and database writes. -/
def eraseStoreOk : Event → Event
  | Event.storeAttempt room msg _ => Event.storeAttempt room msg true
  | e => e

/-- Recogniser for an invocation of the AI proxy. -/
def isCallAI : Event → Bool
  | Event.callAI _ => true
  | _ => false

/-- Recogniser for a whole-room broadcast carrying the reserved AI sender. -/
def isAIRoomBroadcast : Event → Bool
  | Event.broadcastRoom _ m => m.sender = aiSender
  | _ => false

/-- The terminal AI payload `handleAIRequest` broadcasts for a given oracle and
triggering message: the synthetic error on an empty prompt, on timeout or on a
generation error, and the normalised reply on success. -/
def terminalPayload (o : Oracle) (message : String) : AIPayload :=
  let prompt := jsTrim (replaceFirst message "@ai" "")
  if prompt = "" then errorPayload "Empty prompt provided"
  else
    match o.gen with
    | GenOutcome.timeout => errorPayload timeoutMsg
    | GenOutcome.err m => errorPayload m
    | GenOutcome.ok po => normalizeParsed (jsTake prompt 1000) po

/-! ## Socket.IO authentication middleware (`io.use`, `server.js` 151-217) -/

/-- `decodeURIComponent`, a JS builtin, modelled as the identity: no claim
depends on percent-decoding and the middleware only passes the value through. -/
def decodeURIComponentModel (s : String) : String := s

/-- One iteration of the cookie loop of `extractTokenFromCookies`:
`const [name, value] = cookie.trim().split('=')` takes the first two pieces;
the pair is used when the name is exactly `token` and the value is truthy. -/
def cookiePairToken (cookie : String) : Option String :=
  match jsSplitOn (jsTrim cookie) "=" with
  | name :: value :: _ =>
      if name = "token" && value != "" then some (decodeURIComponentModel value)
      else none
  | _ => none

/-- `extractTokenFromCookies` (`server.js` 83-98): split the header on `;`,
return the first cookie named `token` with a truthy value, else null. -/
def extractTokenFromCookies (cookies : String) : Option String :=
  if cookies = "" then none
  else (jsSplitOn cookies ";").findSome? cookiePairToken

/-- Hexadecimal digit test (helper for `isValidObjectId`). -/
def isHexChar (c : Char) : Bool :=
  c.isDigit || ('a' ≤ c && c ≤ 'f') || ('A' ≤ c && c ≤ 'F')

/-- `mongoose.Types.ObjectId.isValid`, modelled by its 24-hex-character
string form (the 12-byte-buffer and numeric forms the driver also accepts are
not reachable from a handshake query string of interest here). -/
def isValidObjectId (s : String) : Bool :=
  s.length = 24 && s.toList.all isHexChar

/-- The handshake data the middleware reads: the `cookie` and `authorization`
headers, the `auth.token` payload field and the `projectId` query parameter
(`none` models an absent field, and for `projectId` also a falsy one). -/
structure Handshake where
  cookieHeader : Option String
  authToken : Option String
  authorizationHeader : Option String
  projectId : Option String
deriving Repr

/-- Token selection of the middleware (`server.js` 170-190), in source order:
a truthy cookie header is searched first; failing that, a truthy
`handshake.auth.token`; failing that, an `authorization` header starting with
`Bearer ` contributes its second space-separated piece. -/
def selectToken (h : Handshake) : Option String :=
  let token : Option String :=
    match h.cookieHeader with
    | some c => if c != "" then extractTokenFromCookies c else none
    | none => none
  let token : Option String :=
    match token with
    | some t => some t
    | none =>
        match h.authToken with
        | some a => if a != "" then some a else none
        | none => none
  match token with
  | some t => some t
  | none =>
      match h.authorizationHeader with
      | some a => if jsStartsWith a "Bearer " then (jsSplitOn a " ").get? 1 else none
      | none => none

/-- Outcome of `jwt.verify(token, secret)` for the presented credential:
valid (with the decoded user), expired (`TokenExpiredError`, with the error
message and the `email` field `jwt.decode` can still read from the expired
payload, `none` when decoding fails or yields no email), or otherwise invalid. -/
inductive VerifyOutcome where
  | valid (user : Sender)
  | expired (emsg : String) (decodedEmail : Option String)
  | invalid (emsg : String)
deriving Repr

/-- Oracle for the external calls of the middleware: the JWT library's verdict
on the token, and the user collection lookup by email (`none` covers both a
missing user and a database error, which the recovery path catches). -/
structure AuthOracle where
  verify : VerifyOutcome
  findUser : String → Option String

/-- Result shape of `verifyTokenWithRecovery`: `{success: true, user,
recovered?}` or `{success: false, error}`. -/
inductive TokenResult where
  | ok (user : Sender) (recovered : Bool)
  | fail (error : String)
deriving DecidableEq, Repr

/-- `verifyTokenWithRecovery` (`server.js` 101-126): a valid token succeeds;
an EXPIRED token is decoded without verification and, when its email matches
an existing user, the connection is recovered with `{email: user.email}` (the
recovered object carries no `_id`, modelled as the empty string); any other
failure, including a failed recovery, reports the JWT error. -/
def verifyTokenWithRecovery (o : AuthOracle) : TokenResult :=
  match o.verify with
  | VerifyOutcome.valid u => TokenResult.ok u false
  | VerifyOutcome.expired emsg decodedEmail =>
      match decodedEmail with
      | some email =>
          match o.findUser email with
          | some uemail => TokenResult.ok ⟨"", uemail⟩ true
          | none => TokenResult.fail emsg
      | none => TokenResult.fail emsg
  | VerifyOutcome.invalid emsg => TokenResult.fail emsg

/-- Decision of the connection middleware: `next(new Error(...))` refuses the
connection with a reason, `next()` accepts it with the resolved user. -/
inductive MwDecision where
  | refuse (reason : String)
  | accept (user : Sender)
deriving DecidableEq, Repr

/-- The `io.use` middleware (`server.js` 151-217): refuse on a falsy or
invalid `projectId`; select a token from cookie / auth payload / bearer header
in that order; refuse when none is found (a bearer header of the shape
`Bearer ` yields the empty string, which is falsy and also refused); otherwise
defer to `verifyTokenWithRecovery`.  The tolerated-absence project lookup
changes no decision and is omitted here. -/
def ioUse (o : AuthOracle) (h : Handshake) : MwDecision :=
  match h.projectId with
  | none => MwDecision.refuse "Invalid or missing projectId"
  | some pid =>
      if !isValidObjectId pid then MwDecision.refuse "Invalid or missing projectId"
      else
        match selectToken h with
        | none => MwDecision.refuse "Authentication error: No token provided"
        | some t =>
            if t = "" then MwDecision.refuse "Authentication error: No token provided"
            else
              match verifyTokenWithRecovery o with
              | TokenResult.ok u _ => MwDecision.accept u
              | TokenResult.fail e =>
                  MwDecision.refuse ("Authentication error: " ++ e)

/-! ## `POST /template` (`routes/templates.routes.js`, `types/index.js`) -/

/-- Modelled from the spec: `BASE_PROMPT` lives in `types/prompts.js`, which is
not under `src/`; it is an opaque fixed prompt string, represented by a
distinct marker. -/
def BASE_PROMPT : String := "<BASE_PROMPT>"

/-- Modelled from the spec: the React project scaffold of `defaults/react.js`
is not under `src/`; one of the "two fixed project scaffolds", an opaque fixed
string represented by a distinct marker. -/
def reactBasePrompt : String := "<reactBasePrompt>"

/-- Modelled from the spec: the Node project scaffold of `defaults/node.js`
is not under `src/`; the other fixed project scaffold, an opaque fixed string
represented by a distinct marker. -/
def nodeBasePrompt : String := "<nodeBasePrompt>"

/-- The artifact wrapper text built inline in the `react` branch of the route
(note the trailing space after the final newline, present in the source). -/
def reactArtifactText : String :=
  "Here is an artifact that contains all files of the project visible to you.\nConsider the contents of ALL files in the project.\n\n" ++
  reactBasePrompt ++
  "\n\nHere is a list of files that exist on the file system but are not being shown to you:\n\n  - .gitignore\n  - package-lock.json\n "

/-- The artifact wrapper text built inline in the `node` branch of the route. -/
def nodeArtifactText : String :=
  "Here is an artifact that contains all files of the project visible to you.\nConsider the contents of ALL files in the project.\n\n" ++
  nodeBasePrompt ++
  "\n\nHere is a list of files that exist on the file system but are not being shown to you:\n\n  - .gitignore\n  - package-lock.json\n"

/-- An HTTP response of the route: `res.json(createTemplateResponse(...))`
(status 200) or `res.status(s).json(createErrorResponse(...))`. -/
inductive HttpResp where
  | templateJson (status : Nat) (prompts : List String) (uiPrompts : List String)
  | errJson (status : Nat) (error : String)
deriving DecidableEq, Repr

/-- A request body for the route: `none` is a falsy body, `some none` a body
whose `prompt` is missing or not a string, `some (some p)` a body with prompt
string `p`. -/
abbrev TemplateBody := Option (Option String)

/-- `validateTemplateRequest` (`types/index.js` 39-43): the body is truthy,
`prompt` is a string, and its trimmed length is positive. -/
def validateTemplateRequest (body : TemplateBody) : Bool :=
  match body with
  | some (some p) => jsTrim p != ""
  | _ => false

/-- `router.post('/')` of `templates.routes.js` (lines 11-57).  `classify` is
the oracle for `callGemini` on the classification question: `none` models a
rejected call (caught, HTTP 500); `some raw` is the model's raw answer, which
the route trims and lowercases before comparing with the two recognised
class words; any other answer is answered with HTTP 403. -/
def templatePost (classify : Option String) (body : TemplateBody) : HttpResp :=
  if !validateTemplateRequest body then
    HttpResp.errJson 400 "Invalid request format. Expected prompt string."
  else
    match classify with
    | none => HttpResp.errJson 500 "Failed to process template request"
    | some raw =>
        let answer := jsToLower (jsTrim raw)
        if answer = "react" then
          HttpResp.templateJson 200 [BASE_PROMPT, reactArtifactText] [reactBasePrompt]
        else if answer = "node" then
          HttpResp.templateJson 200 [BASE_PROMPT, nodeArtifactText] [nodeBasePrompt]
        else
          HttpResp.errJson 403 "You can't access this"

/-! ## `load-more-messages` argument clamping (`server.js` 255-272) -/

/-- A JavaScript value a client may supply for `offset` / `limit`.  An absent
or `undefined` property is modelled by the surrounding `Option` (both trigger
the destructuring defaults); integral numbers are `num` (`parseInt` truncates
a fractional number toward zero, so a float input behaves as its `num`
truncation and is covered by quantifying over all parse results). -/
inductive JsVal where
  | num (n : Int)
  | str (s : String)
  | boolV (b : Bool)
  | nullV
deriving DecidableEq, Repr

/-- Value of a run of decimal digits (helper for `parseIntFromString`). -/
def digitsVal (cs : List Char) : Option Nat :=
  let ds := cs.takeWhile Char.isDigit
  if ds = [] then none
  else some (ds.foldl (fun a c => a * 10 + (c.toNat - 48)) 0)

/-- JS `parseInt` on a string (radix unspecified): skip leading whitespace,
take an optional sign, then a maximal run of decimal digits; no digits means
`NaN` (`none`).  The legacy hexadecimal `0x` prefix form is elided: such an
input parses here as the leading literal `0`, and no claim distinguishes the
two readings. -/
def parseIntFromString (s : String) : Option Int :=
  match (jsTrim s).data with
  | '-' :: rest => (digitsVal rest).map (fun n => -(n : Int))
  | '+' :: rest => (digitsVal rest).map (fun n => (n : Int))
  | cs => (digitsVal cs).map (fun n => (n : Int))

/-- JS `parseInt` on an arbitrary value: the value is first converted with
`String(...)`; `"true"`, `"false"` and `"null"` contain no leading digits and
give `NaN`, an integral number round-trips through its decimal representation. -/
def parseIntModel : JsVal → Option Int
  | JsVal.num n => some n
  | JsVal.str s => parseIntFromString s
  | JsVal.boolV _ => none
  | JsVal.nullV => none

/-- JS `parseInt(x) || d`: `NaN` is falsy, and so is a parsed `0`; both fall
back to the default. -/
def parseIntOr (d : Int) (v : JsVal) : Int :=
  match parseIntModel v with
  | none => d
  | some 0 => d
  | some n => n

/-- The argument sanitisation of the `load-more-messages` handler
(`server.js` 257-258): destructuring defaults `offset = 0`, `limit = 50`, then
`safeOffset = Math.max(0, parseInt(offset) || 0)` and
`safeLimit = Math.min(100, Math.max(1, parseInt(limit) || 50))`. -/
def loadMoreArgs (offset limit : Option JsVal) : Int × Int :=
  let offVal := offset.getD (JsVal.num 0)
  let limVal := limit.getD (JsVal.num 50)
  let safeOffset := max 0 (parseIntOr 0 offVal)
  let safeLimit := min 100 (max 1 (parseIntOr 50 limVal))
  (safeOffset, safeLimit)

/-! ## Message cache (spec §4.2, §8; `services/message.service.js` is not
under `src/`, so the cache is modelled from the spec) -/

/-- Modelled from the spec: a cached chat message of `message.service.js`
(not under `src/`) — a free-text body, a sender display label, and its
creation instant (milliseconds), from which the fixed retention window runs. -/
structure CachedMsg where
  body : String
  senderLabel : String
  storedAt : Nat
deriving DecidableEq, Repr

/-- Modelled from the spec: the retention window is "fixed at 24 hours from
creation". -/
def retentionMs : Nat := 24 * 60 * 60 * 1000

/-- Modelled from the spec: a message is retained while the retention window
has not elapsed since its creation. -/
def retained (now : Nat) (m : CachedMsg) : Bool :=
  now < m.storedAt + retentionMs

/-- Modelled from the spec: the cache keyed by project id. -/
abbrev Cache := String → List CachedMsg

/-- Modelled from the spec: the empty cache. -/
def emptyCache : Cache := fun _ => []

/-- Modelled from the spec: `store(projectId, message)` "appends a message
under a project-scoped key with the fixed retention window". -/
def cacheStore (c : Cache) (pid : String) (m : CachedMsg) : Cache :=
  fun p => if p = pid then c p ++ [m] else c p

/-- Modelled from the spec: `list(projectId, offset, limit)` "returns messages
in insertion order starting at offset", restricted to the messages still
inside the retention window. -/
def cacheList (c : Cache) (now : Nat) (pid : String) (offset limit : Nat) :
    List CachedMsg :=
  ((((c pid).filter (retained now)).drop offset).take limit)

/-! ## Theorems -/

/-- C10: for every load-more-messages request, whatever values (including
missing, negative, or non-numeric ones) the client supplies for offset and
limit, the offset passed to the message cache is a non-negative integer and
the limit passed is an integer between 1 and 100 inclusive. -/
theorem c10_load_more_args_clamped (offset limit : Option JsVal) :
    0 ≤ (loadMoreArgs offset limit).1 ∧
    1 ≤ (loadMoreArgs offset limit).2 ∧ (loadMoreArgs offset limit).2 ≤ 100 := by
  unfold loadMoreArgs
  refine ⟨le_max_left 0 _, ?_, ?_⟩
  · exact le_min (by norm_num) (le_max_left 1 _)
  · exact min_le_left 100 _

/-- C9 counterexample: a `POST /template` request with the non-empty prompt
`"make a snake game"` on which the model's classification is `"python"` is
answered with an HTTP 403 error object, not with either of the two fixed
scaffolds. -/
theorem c9_counterexample :
    templatePost (some "python") (some (some "make a snake game")) =
      HttpResp.errJson 403 "You can't access this" := by rfl

/-- C9 (amended): for every `POST /template` request whose prompt has
non-empty trimmed content, the response is the fixed React scaffold when the
model's classification (trimmed, lowercased) is `react`, the fixed Node
scaffold when it is `node`, and otherwise an HTTP 403 error; a failed
classification call is answered with an HTTP 500 error. -/
theorem c9_template_response (ans p : String) (hp : jsTrim p ≠ "") :
    templatePost (some ans) (some (some p)) =
      (if jsToLower (jsTrim ans) = "react" then
        HttpResp.templateJson 200 [BASE_PROMPT, reactArtifactText] [reactBasePrompt]
       else if jsToLower (jsTrim ans) = "node" then
        HttpResp.templateJson 200 [BASE_PROMPT, nodeArtifactText] [nodeBasePrompt]
       else HttpResp.errJson 403 "You can't access this") ∧
    templatePost none (some (some p)) =
      HttpResp.errJson 500 "Failed to process template request" := by
  unfold templatePost validateTemplateRequest
  simp [hp]

/-- C9 witness: the amended C9 theorem applied to the classification `react`
and the prompt `"make a todo app"`. -/
theorem c9_witness :
    jsTrim "make a todo app" ≠ "" ∧
    (templatePost (some "react") (some (some "make a todo app")) =
      (if jsToLower (jsTrim "react") = "react" then
        HttpResp.templateJson 200 [BASE_PROMPT, reactArtifactText] [reactBasePrompt]
       else if jsToLower (jsTrim "react") = "node" then
        HttpResp.templateJson 200 [BASE_PROMPT, nodeArtifactText] [nodeBasePrompt]
       else HttpResp.errJson 403 "You can't access this") ∧
     templatePost none (some (some "make a todo app")) =
      HttpResp.errJson 500 "Failed to process template request") :=
  ⟨by decide, c9_template_response "react" "make a todo app" (by decide)⟩

/-- C7: for every connection attempt, the authentication token is taken from
the first of these sources that yields one, in this order: the cookie header,
the auth payload of the handshake, then the bearer authorization header.
Part one: a token found in the cookie header wins regardless of the other
sources; part two: when the cookie header yields none, a truthy auth-payload
token wins; part three: when both earlier sources yield none, the
`Bearer `-shaped authorization header contributes its token. -/
theorem c7_token_source_order (h : Handshake) (t : String) :
    (∀ c, h.cookieHeader = some c → extractTokenFromCookies c = some t →
      selectToken h = some t) ∧
    ((∀ c, h.cookieHeader = some c → extractTokenFromCookies c = none) →
      ∀ a, h.authToken = some a → a = t → t ≠ "" → selectToken h = some t) ∧
    ((∀ c, h.cookieHeader = some c → extractTokenFromCookies c = none) →
      (∀ a, h.authToken = some a → a = "") →
      ∀ a, h.authorizationHeader = some a → jsStartsWith a "Bearer " = true →
        (jsSplitOn a " ")[1]? = some t → selectToken h = some t) := by
  obtain ⟨ch, atk, ah, pid⟩ := h
  refine ⟨?_, ?_, ?_⟩
  · rintro c rfl hx
    by_cases hc0 : c = ""
    · subst hc0; simp [extractTokenFromCookies] at hx
    · simp [selectToken, hc0, hx]
  · rintro hcook a rfl rfl ht
    cases ch with
    | none => simp [selectToken, ht]
    | some c =>
        by_cases hc0 : c = ""
        · subst hc0
          simp [selectToken, ht]
        · simp [selectToken, hc0, hcook c rfl, ht]
  · rintro hcook hauth a rfl hbear hsplit
    cases ch with
    | none =>
        cases atk with
        | none => simp [selectToken, hbear, hsplit]
        | some b =>
            have hb := hauth b rfl
            subst hb
            simp [selectToken, hbear, hsplit]
    | some c =>
        by_cases hc0 : c = ""
        · subst hc0
          cases atk with
          | none => simp [selectToken, hbear, hsplit]
          | some b =>
              have hb := hauth b rfl
              subst hb
              simp [selectToken, hbear, hsplit]
        · cases atk with
          | none => simp [selectToken, hc0, hcook c rfl, hbear, hsplit]
          | some b =>
              have hb := hauth b rfl
              subst hb
              simp [selectToken, hc0, hcook c rfl, hbear, hsplit]

/-- C7 witness: a handshake offering all three sources takes the cookie
token. -/
theorem c7_witness :
    (∀ c, (some "sid=1; token=cookieT" : Option String) = some c →
      extractTokenFromCookies c = some "cookieT") ∧
    selectToken ⟨some "sid=1; token=cookieT", some "authT",
      some "Bearer bearerT", some "aaaabbbbccccddddeeeeffff"⟩ = some "cookieT" := by
  refine ⟨?_, ?_⟩
  · rintro c hc
    cases hc
    decide
  · exact (c7_token_source_order
      ⟨some "sid=1; token=cookieT", some "authT", some "Bearer bearerT",
        some "aaaabbbbccccddddeeeeffff"⟩ "cookieT").1
      "sid=1; token=cookieT" rfl (by decide)

/-- C6 counterexample: a connection attempt on a valid project id presenting
an EXPIRED credential whose payload still decodes to the email of an existing
user is ACCEPTED (with the recovered email-only identity), not refused. -/
theorem c6_counterexample :
    ioUse ⟨VerifyOutcome.expired "jwt expired" (some "u@example.com"),
           fun e => if e = "u@example.com" then some "u@example.com" else none⟩
          ⟨none, some "expired.jwt.token", none, some "aaaabbbbccccddddeeeeffff"⟩ =
      MwDecision.accept ⟨"", "u@example.com"⟩ := by
  rfl

/-- C6 (amended): a connection attempt presenting an expired credential is
refused — as for a missing or invalid credential — UNLESS the expired token
still decodes to an email belonging to an existing user, in which case the
connection is accepted with the recovered email-only identity. -/
theorem c6_expired_credential (o : AuthOracle) (h : Handshake)
    (pid t emsg : String) (de : Option String)
    (hpid : h.projectId = some pid) (hvalid : isValidObjectId pid = true)
    (htok : selectToken h = some t) (ht : t ≠ "")
    (hexp : o.verify = VerifyOutcome.expired emsg de) :
    (∀ email uemail, de = some email → o.findUser email = some uemail →
      ioUse o h = MwDecision.accept ⟨"", uemail⟩) ∧
    (∀ email, de = some email → o.findUser email = none →
      ioUse o h = MwDecision.refuse ("Authentication error: " ++ emsg)) ∧
    (de = none →
      ioUse o h = MwDecision.refuse ("Authentication error: " ++ emsg)) := by
  refine ⟨?_, ?_, ?_⟩
  · rintro email uemail rfl hu
    simp [ioUse, verifyTokenWithRecovery, hpid, hvalid, htok, hexp, ht, hu]
  · rintro email rfl hu
    simp [ioUse, verifyTokenWithRecovery, hpid, hvalid, htok, hexp, ht, hu]
  · rintro rfl
    simp [ioUse, verifyTokenWithRecovery, hpid, hvalid, htok, hexp, ht]

/-- C6 witness: the amended C6 theorem at a concrete handshake and oracle,
recovery branch (existing user) and refusal branch (no such user). -/
theorem c6_witness :
    ((⟨none, some "expired.jwt.token", none,
        some "aaaabbbbccccddddeeeeffff"⟩ : Handshake).projectId =
      some "aaaabbbbccccddddeeeeffff") ∧
    isValidObjectId "aaaabbbbccccddddeeeeffff" = true ∧
    ioUse ⟨VerifyOutcome.expired "jwt expired" (some "u@example.com"),
           fun _ => some "u@example.com"⟩
          ⟨none, some "expired.jwt.token", none,
            some "aaaabbbbccccddddeeeeffff"⟩ =
      MwDecision.accept ⟨"", "u@example.com"⟩ ∧
    ioUse ⟨VerifyOutcome.expired "jwt expired" (some "ghost@example.com"),
           fun _ => none⟩
          ⟨none, some "expired.jwt.token", none,
            some "aaaabbbbccccddddeeeeffff"⟩ =
      MwDecision.refuse ("Authentication error: " ++ "jwt expired") := by
  refine ⟨rfl, by decide, ?_, ?_⟩
  · exact (c6_expired_credential
      ⟨VerifyOutcome.expired "jwt expired" (some "u@example.com"),
        fun _ => some "u@example.com"⟩
      ⟨none, some "expired.jwt.token", none, some "aaaabbbbccccddddeeeeffff"⟩
      "aaaabbbbccccddddeeeeffff" "expired.jwt.token" "jwt expired"
      (some "u@example.com") rfl (by decide) (by decide) (by decide) rfl).1
      "u@example.com" "u@example.com" rfl rfl
  · exact (c6_expired_credential
      ⟨VerifyOutcome.expired "jwt expired" (some "ghost@example.com"),
        fun _ => none⟩
      ⟨none, some "expired.jwt.token", none, some "aaaabbbbccccddddeeeeffff"⟩
      "aaaabbbbccccddddeeeeffff" "expired.jwt.token" "jwt expired"
      (some "ghost@example.com") rfl (by decide) (by decide) (by decide) rfl).2.1
      "ghost@example.com" rfl rfl

/-- The cache built by a fold of `cacheStore` under one key holds exactly the
prior contents followed by the stored messages, in order. -/
theorem cacheStore_foldl_apply (msgs : List CachedMsg) (c : Cache) (pid : String) :
    (msgs.foldl (fun acc m => cacheStore acc pid m) c) pid = c pid ++ msgs := by
  induction msgs generalizing c with
  | nil => simp
  | cons m rest ih =>
      simp only [List.foldl_cons]
      rw [ih]
      simp [cacheStore]

/-- C8 (spec-modelled): for every sequence of messages stored for a project
within the retention window, `list(projectId, offset, limit)` returns them in
their original insertion order, starting at the given offset (and truncated to
`limit`): the result is exactly the contiguous slice of the insertion
sequence. -/
theorem c8_list_insertion_order (msgs : List CachedMsg) (pid : String)
    (now offset limit : Nat) (hret : ∀ m ∈ msgs, retained now m = true) :
    cacheList (msgs.foldl (fun acc m => cacheStore acc pid m) emptyCache)
        now pid offset limit = (msgs.drop offset).take limit := by
  unfold cacheList
  rw [cacheStore_foldl_apply]
  have hfilter : msgs.filter (retained now) = msgs :=
    List.filter_eq_self.mpr hret
  simp [emptyCache, hfilter]

/-- C8 witness: three messages stored at instants 0, 5 and 9, listed at
instant 10 with offset 1 and limit 2. -/
theorem c8_witness :
    (∀ m ∈ ([⟨"hello", "alice", 0⟩, ⟨"hi", "bob", 5⟩,
        ⟨"yo", "carol", 9⟩] : List CachedMsg), retained 10 m = true) ∧
    cacheList (([⟨"hello", "alice", 0⟩, ⟨"hi", "bob", 5⟩,
        ⟨"yo", "carol", 9⟩] : List CachedMsg).foldl
          (fun acc m => cacheStore acc "P1" m) emptyCache) 10 "P1" 1 2 =
      (([⟨"hello", "alice", 0⟩, ⟨"hi", "bob", 5⟩,
        ⟨"yo", "carol", 9⟩] : List CachedMsg).drop 1).take 2 :=
  ⟨by decide, c8_list_insertion_order
    [⟨"hello", "alice", 0⟩, ⟨"hi", "bob", 5⟩, ⟨"yo", "carol", 9⟩]
    "P1" 10 1 2 (by decide)⟩

/-- The file-tree update tail contains no room broadcast at all. -/
theorem fileTreeEvents_filter_ai (ctx : SocketCtx) (o : Oracle)
    (ft? : Option FileTree) :
    (fileTreeEvents ctx o ft?).filter isAIRoomBroadcast = [] := by
  cases ft? with
  | none => rfl
  | some ft =>
      simp only [fileTreeEvents]
      split_ifs <;> rfl

/-- The file-tree update tail contains no sender-excluding broadcast. -/
theorem fileTreeEvents_no_bOthers (ctx : SocketCtx) (o : Oracle)
    (ft? : Option FileTree) (s r : String) (m : ChatMsg) :
    Event.broadcastOthers s r m ∉ fileTreeEvents ctx o ft? := by
  cases ft? with
  | none => simp [fileTreeEvents]
  | some ft =>
      simp only [fileTreeEvents]
      split_ifs <;> simp

/-- Every `error` event the AI handler emits back to the triggering socket is
the file-tree update failure. -/
theorem fileTreeEvents_emit_types (ctx : SocketCtx) (o : Oracle)
    (ft? : Option FileTree) (t : String)
    (h : Event.emitError t ∈ fileTreeEvents ctx o ft?) :
    t = "UPDATE_FILE_TREE_ERROR" := by
  cases ft? with
  | none => simp [fileTreeEvents] at h
  | some ft =>
      simp only [fileTreeEvents] at h
      split_ifs at h <;> simp at h
      exact h

/-- The room broadcasts of the AI handler carrying the reserved AI sender are
exactly the interim notice followed by the terminal message. -/
theorem handleAI_filter_ai (ctx : SocketCtx) (roomId : String) (o : Oracle)
    (now message : String) :
    (handleAIRequest ctx roomId o now message).filter isAIRoomBroadcast =
      [Event.broadcastRoom roomId (mkAIMsg interimPayload now),
       Event.broadcastRoom roomId (mkAIMsg (terminalPayload o message) now)] := by
  unfold handleAIRequest terminalPayload
  by_cases hp : jsTrim (replaceFirst message "@ai" "") = ""
  · simp [hp, aiErrorEvents, isAIRoomBroadcast, mkAIMsg, aiSender]
  · cases hgen : o.gen with
    | timeout => simp [hp, hgen, aiErrorEvents, isAIRoomBroadcast, mkAIMsg, aiSender]
    | err m => simp [hp, hgen, aiErrorEvents, isAIRoomBroadcast, mkAIMsg, aiSender]
    | ok po =>
        simp [hp, hgen, isAIRoomBroadcast, mkAIMsg, aiSender,
          fileTreeEvents_filter_ai]

/-- The AI handler never performs a sender-excluding broadcast. -/
theorem handleAI_no_bOthers (ctx : SocketCtx) (roomId : String) (o : Oracle)
    (now message : String) (s r : String) (m : ChatMsg) :
    Event.broadcastOthers s r m ∉ handleAIRequest ctx roomId o now message := by
  unfold handleAIRequest
  by_cases hp : jsTrim (replaceFirst message "@ai" "") = ""
  · simp [hp, aiErrorEvents]
  · cases hgen : o.gen with
    | timeout => simp [hp, hgen, aiErrorEvents]
    | err me => simp [hp, hgen, aiErrorEvents]
    | ok po => simp [hp, hgen, aiErrorEvents, fileTreeEvents_no_bOthers]

/-- Every `error` event emitted during AI handling is the file-tree update
failure — in particular no storage failure surfaces as an error event. -/
theorem handleAI_emit_types (ctx : SocketCtx) (roomId : String) (o : Oracle)
    (now message t : String)
    (h : Event.emitError t ∈ handleAIRequest ctx roomId o now message) :
    t = "UPDATE_FILE_TREE_ERROR" := by
  unfold handleAIRequest at h
  by_cases hp : jsTrim (replaceFirst message "@ai" "") = ""
  · simp [hp, aiErrorEvents] at h
  · cases hgen : o.gen with
    | timeout => rw [if_neg hp, hgen] at h; simp [aiErrorEvents] at h
    | err me => rw [if_neg hp, hgen] at h; simp [aiErrorEvents] at h
    | ok po =>
        rw [if_neg hp, hgen] at h
        simp at h
        exact fileTreeEvents_emit_types ctx o _ t h

/-- The AI handler ignores the store-failure flag of the user message. -/
theorem handleAI_store_user_irrel (ctx : SocketCtx) (roomId : String)
    (o : Oracle) (now message : String) (b : Bool) :
    handleAIRequest ctx roomId {o with storeUserFails := b} now message =
      handleAIRequest ctx roomId o now message := rfl

/-- C2: for every AI-trigger message handled by the relay, exactly one
interim "working" notice from the AI sender is broadcast to the room, and
exactly one terminal AI-sender message is broadcast after it — the AI's
normalised reply on success, a synthetic error message on failure — never
zero and never more than one of each per request: the whole-room broadcasts
with the reserved AI sender are exactly the interim notice followed by the
terminal message. -/
theorem c2_one_interim_one_terminal (ctx : SocketCtx) (roomId : String)
    (o : Oracle) (now raw : String)
    (htrig : strIncludes (jsTake raw 10000) "@ai" = true) :
    (projectMessage ctx roomId o now (some raw)).filter isAIRoomBroadcast =
      [Event.broadcastRoom roomId (mkAIMsg interimPayload now),
       Event.broadcastRoom roomId
         (mkAIMsg (terminalPayload o (jsTake raw 10000)) now)] ∧
    ((∃ emsg, terminalPayload o (jsTake raw 10000) = errorPayload emsg) ∨
     (∃ po, o.gen = GenOutcome.ok po ∧
        terminalPayload o (jsTake raw 10000) =
          normalizeParsed
            (jsTake (jsTrim (replaceFirst (jsTake raw 10000) "@ai" "")) 1000) po)) := by
  constructor
  · have h := handleAI_filter_ai ctx roomId o now (jsTake raw 10000)
    simp [projectMessage, htrig, List.filter_append, isAIRoomBroadcast, h]
  · unfold terminalPayload
    by_cases hp : jsTrim (replaceFirst (jsTake raw 10000) "@ai" "") = ""
    · exact Or.inl ⟨"Empty prompt provided", by rw [if_pos hp]⟩
    · cases hgen : o.gen with
      | timeout => exact Or.inl ⟨timeoutMsg, by rw [if_neg hp]⟩
      | err m => exact Or.inl ⟨m, by rw [if_neg hp]⟩
      | ok po => exact Or.inr ⟨po, rfl, by rw [if_neg hp]⟩

/-- C2 witness: the trigger message `"@ai hello"` with a successful
generation yields the interim notice followed by the terminal reply. -/
theorem c2_witness :
    strIncludes (jsTake "@ai hello" 10000) "@ai" = true ∧
    (projectMessage ⟨"s1", ⟨"u1", "u@x.com"⟩, "P1", true⟩ "P1"
        ⟨false, false, false, false,
          GenOutcome.ok (ParseOutcome.obj (some "done") none)⟩ "T"
        (some "@ai hello")).filter isAIRoomBroadcast =
      [Event.broadcastRoom "P1" (mkAIMsg interimPayload "T"),
       Event.broadcastRoom "P1"
         (mkAIMsg (terminalPayload
           ⟨false, false, false, false,
             GenOutcome.ok (ParseOutcome.obj (some "done") none)⟩
           (jsTake "@ai hello" 10000)) "T")] :=
  ⟨by decide,
   (c2_one_interim_one_terminal ⟨"s1", ⟨"u1", "u@x.com"⟩, "P1", true⟩ "P1"
     ⟨false, false, false, false,
       GenOutcome.ok (ParseOutcome.obj (some "done") none)⟩ "T" "@ai hello"
     (by decide)).1⟩

/-- C3: if the AI proxy call exceeds the fixed 45-second wall-clock timeout,
exactly one error message with the reserved AI sender id is broadcast to the
room (the only other AI-sender room broadcast is the interim notice, which is
not an error message), and the project record's file tree is not modified by
that request. -/
theorem c3_timeout_one_error_tree_unchanged (ctx : SocketCtx) (roomId : String)
    (o : Oracle) (now raw : String)
    (htrig : strIncludes (jsTake raw 10000) "@ai" = true)
    (hp : jsTrim (replaceFirst (jsTake raw 10000) "@ai" "") ≠ "")
    (hgen : o.gen = GenOutcome.timeout) :
    (projectMessage ctx roomId o now (some raw)).filter isAIRoomBroadcast =
      [Event.broadcastRoom roomId (mkAIMsg interimPayload now),
       Event.broadcastRoom roomId (mkAIMsg (errorPayload timeoutMsg) now)] ∧
    (∀ pid ft, Event.dbUpdate pid ft ∉ projectMessage ctx roomId o now (some raw)) ∧
    (∀ db : String → Option FileTree,
      runDb db (projectMessage ctx roomId o now (some raw)) = db) := by
  refine ⟨?_, ?_, ?_⟩
  · have h := handleAI_filter_ai ctx roomId o now (jsTake raw 10000)
    rw [terminalPayload, if_neg hp, hgen] at h
    simp [projectMessage, htrig, List.filter_append, isAIRoomBroadcast, h]
  · intro pid ft
    simp [projectMessage, htrig, handleAIRequest, if_neg hp, hgen, aiErrorEvents]
  · intro db
    simp [projectMessage, htrig, handleAIRequest, if_neg hp, hgen, aiErrorEvents,
      runDb]

/-- C3 witness: the trigger message `"@ai hello"` under a timed-out proxy
call broadcasts the interim notice and exactly one timeout error, and leaves
an arbitrary concrete projects database unchanged. -/
theorem c3_witness :
    strIncludes (jsTake "@ai hello" 10000) "@ai" = true ∧
    jsTrim (replaceFirst (jsTake "@ai hello" 10000) "@ai" "") ≠ "" ∧
    (projectMessage ⟨"s1", ⟨"u1", "u@x.com"⟩, "P1", true⟩ "P1"
        ⟨false, false, false, false, GenOutcome.timeout⟩ "T"
        (some "@ai hello")).filter isAIRoomBroadcast =
      [Event.broadcastRoom "P1" (mkAIMsg interimPayload "T"),
       Event.broadcastRoom "P1" (mkAIMsg (errorPayload timeoutMsg) "T")] ∧
    runDb (fun _ => some [("old.js", "contents")])
        (projectMessage ⟨"s1", ⟨"u1", "u@x.com"⟩, "P1", true⟩ "P1"
          ⟨false, false, false, false, GenOutcome.timeout⟩ "T"
          (some "@ai hello")) =
      (fun _ => some [("old.js", "contents")]) := by
  have h := c3_timeout_one_error_tree_unchanged
    ⟨"s1", ⟨"u1", "u@x.com"⟩, "P1", true⟩ "P1"
    ⟨false, false, false, false, GenOutcome.timeout⟩ "T" "@ai hello"
    (by decide) (by decide) rfl
  exact ⟨by decide, by decide, h.1, h.2.2 (fun _ => some [("old.js", "contents")])⟩

/-- C1 counterexample: the received chat message `"@ai"` contains the
AI-trigger token, and the relay stores and broadcasts it, but the AI proxy is
NOT invoked (the stripped, trimmed prompt is empty, so the handler throws
before calling the proxy), contradicting the claim that every `@ai` message
leads to a proxy invocation with the stripped prompt. -/
theorem c1_counterexample :
    strIncludes (jsTake "@ai" 10000) "@ai" = true ∧
    (projectMessage ⟨"s1", ⟨"u1", "u@x.com"⟩, "P1", true⟩ "P1"
        ⟨false, false, false, false,
          GenOutcome.ok (ParseOutcome.obj (some "done") (some [("a.js", "x")]))⟩
        "T" (some "@ai")).filter isCallAI = [] := by
  constructor
  · decide
  · decide

/-- C1 (amended): for every received chat message whose (first 10000
characters of) body contains `@ai` and whose prompt — the body with the first
`@ai` occurrence removed, then trimmed — is non-empty, the relay first stores
and broadcasts the raw message, then invokes the AI proxy with the first 1000
characters of that prompt; if the proxy succeeds, its parsed reply contains a
non-empty file tree, the socket resolved a project at connection time, and
the database write succeeds, then the project record's file tree is replaced
with the reply's file tree and a final assistant-sender message is broadcast
to the room. -/
theorem c1_ai_flow (ctx : SocketCtx) (roomId : String) (o : Oracle)
    (now raw : String) (po : ParseOutcome) (ft : FileTree)
    (htrig : strIncludes (jsTake raw 10000) "@ai" = true)
    (hp : jsTrim (replaceFirst (jsTake raw 10000) "@ai" "") ≠ "")
    (hgen : o.gen = GenOutcome.ok po)
    (hft : (normalizeParsed
        (jsTake (jsTrim (replaceFirst (jsTake raw 10000) "@ai" "")) 1000)
        po).fileTree = some ft)
    (hne : ft ≠ [])
    (hfound : ctx.projectFound = true)
    (hdb : o.dbUpdateFails = false) :
    projectMessage ctx roomId o now (some raw) =
      [Event.storeAttempt roomId
         ⟨MsgBody.text (jsTake raw 10000), ctx.user, now⟩ (!o.storeUserFails),
       Event.broadcastOthers ctx.sockId roomId
         ⟨MsgBody.text (jsTake raw 10000), ctx.user, now⟩,
       Event.storeAttempt roomId (mkAIMsg interimPayload now)
         (!o.storeInterimFails),
       Event.broadcastRoom roomId (mkAIMsg interimPayload now),
       Event.callAI (jsTake (jsTrim (replaceFirst (jsTake raw 10000) "@ai" "")) 1000),
       Event.storeAttempt roomId
         (mkAIMsg (normalizeParsed
           (jsTake (jsTrim (replaceFirst (jsTake raw 10000) "@ai" "")) 1000) po) now)
         (!o.storeTerminalFails),
       Event.broadcastRoom roomId
         (mkAIMsg (normalizeParsed
           (jsTake (jsTrim (replaceFirst (jsTake raw 10000) "@ai" "")) 1000) po) now),
       Event.dbUpdate ctx.projectId ft] ∧
    (∀ db : String → Option FileTree,
      runDb db (projectMessage ctx roomId o now (some raw)) ctx.projectId =
        some ft) := by
  constructor
  · simp [projectMessage, htrig, handleAIRequest, if_neg hp, hgen,
      fileTreeEvents, hft, hne, hfound, hdb]
  · intro db
    have h : projectMessage ctx roomId o now (some raw) =
        [Event.storeAttempt roomId
           ⟨MsgBody.text (jsTake raw 10000), ctx.user, now⟩ (!o.storeUserFails),
         Event.broadcastOthers ctx.sockId roomId
           ⟨MsgBody.text (jsTake raw 10000), ctx.user, now⟩,
         Event.storeAttempt roomId (mkAIMsg interimPayload now)
           (!o.storeInterimFails),
         Event.broadcastRoom roomId (mkAIMsg interimPayload now),
         Event.callAI (jsTake (jsTrim (replaceFirst (jsTake raw 10000) "@ai" "")) 1000),
         Event.storeAttempt roomId
           (mkAIMsg (normalizeParsed
             (jsTake (jsTrim (replaceFirst (jsTake raw 10000) "@ai" "")) 1000) po) now)
           (!o.storeTerminalFails),
         Event.broadcastRoom roomId
           (mkAIMsg (normalizeParsed
             (jsTake (jsTrim (replaceFirst (jsTake raw 10000) "@ai" "")) 1000) po) now),
         Event.dbUpdate ctx.projectId ft] := by
      simp [projectMessage, htrig, handleAIRequest, if_neg hp, hgen,
        fileTreeEvents, hft, hne, hfound, hdb]
    rw [h]
    simp [runDb]

/-- C4: for every chat message the relay broadcasts on behalf of a client,
the broadcast is the sender-excluding primitive issued from the sending
socket: the received message is broadcast (first conjunct), every
sender-excluding broadcast in the trace originates from the sending socket,
and its delivery semantics never reach that socket, whatever the room
membership (second conjunct). -/
theorem c4_broadcast_excludes_sender (ctx : SocketCtx) (roomId : String)
    (o : Oracle) (now raw : String) (members : List String) :
    (Event.broadcastOthers ctx.sockId roomId
        ⟨MsgBody.text (jsTake raw 10000), ctx.user, now⟩
      ∈ projectMessage ctx roomId o now (some raw)) ∧
    (∀ e ∈ projectMessage ctx roomId o now (some raw), ∀ s r m,
      e = Event.broadcastOthers s r m →
        s = ctx.sockId ∧ deliveredTo members e ctx.sockId = false) := by
  constructor
  · by_cases htrig : strIncludes (jsTake raw 10000) "@ai" = true
    · simp [projectMessage, htrig]
    · simp [projectMessage, htrig]
  · intro e he s r m hbo
    subst hbo
    simp only [projectMessage, List.mem_append, List.mem_cons,
      List.mem_singleton] at he
    have hs : s = ctx.sockId := by
      rcases he with he | he
      · rcases he with he | he | he
        · exact absurd he (by simp)
        · exact (Event.broadcastOthers.injEq _ _ _ _ _ _).mp he |>.1
        · simp at he
      · by_cases htrig : strIncludes (jsTake raw 10000) "@ai" = true
        · rw [if_pos htrig] at he
          exact absurd he (handleAI_no_bOthers ctx roomId o now _ s r m)
        · rw [if_neg htrig] at he
          simp at he
    subst hs
    simp [deliveredTo]

/-- C4 witness: with sockets `s1`, `s2`, `s3` in the room, the broadcast of
the received message is in the trace and is never delivered back to `s1`,
the sending socket. -/
theorem c4_witness :
    (Event.broadcastOthers "s1" "P1"
        ⟨MsgBody.text (jsTake "hello" 10000), ⟨"u1", "u@x.com"⟩, "T"⟩
      ∈ projectMessage ⟨"s1", ⟨"u1", "u@x.com"⟩, "P1", true⟩ "P1"
          ⟨false, false, false, false, GenOutcome.timeout⟩ "T" (some "hello")) ∧
    deliveredTo ["s1", "s2", "s3"]
      (Event.broadcastOthers "s1" "P1"
        ⟨MsgBody.text (jsTake "hello" 10000), ⟨"u1", "u@x.com"⟩, "T"⟩) "s1" =
      false := by
  have h := c4_broadcast_excludes_sender ⟨"s1", ⟨"u1", "u@x.com"⟩, "P1", true⟩
    "P1" ⟨false, false, false, false, GenOutcome.timeout⟩ "T" "hello"
    ["s1", "s2", "s3"]
  exact ⟨h.1, (h.2 _ h.1 "s1" "P1"
    ⟨MsgBody.text (jsTake "hello" 10000), ⟨"u1", "u@x.com"⟩, "T"⟩ rfl).2⟩

/-- C5: for every received chat message, if storing the message in the
message cache fails, the message is still broadcast to the other sockets in
the room, the storage failure is never surfaced to the sender as an error
event (the only `error` event any continuation can emit concerns the
file-tree update, not message storage) nor as a broken connection, and the
observable trace — everything except the recorded store outcome itself — is
identical to the trace of a successful store. -/
theorem c5_store_failure_still_broadcasts (ctx : SocketCtx) (roomId : String)
    (o : Oracle) (now raw : String) (hfail : o.storeUserFails = true) :
    (Event.broadcastOthers ctx.sockId roomId
        ⟨MsgBody.text (jsTake raw 10000), ctx.user, now⟩
      ∈ projectMessage ctx roomId o now (some raw)) ∧
    Event.emitError "INVALID_MESSAGE" ∉ projectMessage ctx roomId o now (some raw) ∧
    Event.emitError "MESSAGE_HANDLING_ERROR" ∉
      projectMessage ctx roomId o now (some raw) ∧
    (projectMessage ctx roomId o now (some raw)).map eraseStoreOk =
      (projectMessage ctx roomId {o with storeUserFails := false} now
        (some raw)).map eraseStoreOk := by
  refine ⟨?_, ?_, ?_, ?_⟩
  · by_cases htrig : strIncludes (jsTake raw 10000) "@ai" = true
    · simp [projectMessage, htrig]
    · simp [projectMessage, htrig]
  · intro he
    simp only [projectMessage, List.mem_append, List.mem_cons,
      List.mem_singleton] at he
    rcases he with (he | he | he) | he
    · simp at he
    · simp at he
    · simp at he
    · by_cases htrig : strIncludes (jsTake raw 10000) "@ai" = true
      · rw [if_pos htrig] at he
        have := handleAI_emit_types ctx roomId o now _ _ he
        simp at this
      · rw [if_neg htrig] at he
        simp at he
  · intro he
    simp only [projectMessage, List.mem_append, List.mem_cons,
      List.mem_singleton] at he
    rcases he with (he | he | he) | he
    · simp at he
    · simp at he
    · simp at he
    · by_cases htrig : strIncludes (jsTake raw 10000) "@ai" = true
      · rw [if_pos htrig] at he
        have := handleAI_emit_types ctx roomId o now _ _ he
        simp at this
      · rw [if_neg htrig] at he
        simp at he
  · by_cases htrig : strIncludes (jsTake raw 10000) "@ai" = true
    · simp [projectMessage, htrig, eraseStoreOk, handleAI_store_user_irrel]
    · simp [projectMessage, htrig, eraseStoreOk]

/-- C5 witness: with the user-message store failing, the message `"hello"`
is still broadcast to the others and no error event reaches the sender. -/
theorem c5_witness :
    ((⟨true, false, false, false, GenOutcome.timeout⟩ : Oracle).storeUserFails
        = true) ∧
    (Event.broadcastOthers "s1" "P1"
        ⟨MsgBody.text (jsTake "hello" 10000), ⟨"u1", "u@x.com"⟩, "T"⟩
      ∈ projectMessage ⟨"s1", ⟨"u1", "u@x.com"⟩, "P1", true⟩ "P1"
          ⟨true, false, false, false, GenOutcome.timeout⟩ "T" (some "hello")) ∧
    Event.emitError "INVALID_MESSAGE" ∉
      projectMessage ⟨"s1", ⟨"u1", "u@x.com"⟩, "P1", true⟩ "P1"
        ⟨true, false, false, false, GenOutcome.timeout⟩ "T" (some "hello") := by
  have h := c5_store_failure_still_broadcasts
    ⟨"s1", ⟨"u1", "u@x.com"⟩, "P1", true⟩ "P1"
    ⟨true, false, false, false, GenOutcome.timeout⟩ "T" "hello" rfl
  exact ⟨rfl, h.1, h.2.1⟩

/-- C1 witness: the scenario message `"@ai create a button component"` with a
successful generation carrying the file tree `{"a.js": "x"}`: the hypotheses
of the amended C1 theorem hold, and replaying the trace over a database maps
project `P1` to that file tree. -/
theorem c1_witness :
    strIncludes (jsTake "@ai create a button component" 10000) "@ai" = true ∧
    jsTrim (replaceFirst (jsTake "@ai create a button component" 10000)
        "@ai" "") ≠ "" ∧
    (normalizeParsed
        (jsTake (jsTrim (replaceFirst
          (jsTake "@ai create a button component" 10000) "@ai" "")) 1000)
        (ParseOutcome.obj (some "done") (some [("a.js", "x")]))).fileTree =
      some [("a.js", "x")] ∧
    runDb (fun _ => none)
        (projectMessage ⟨"s1", ⟨"u1", "u@x.com"⟩, "P1", true⟩ "P1"
          ⟨false, false, false, false,
            GenOutcome.ok (ParseOutcome.obj (some "done")
              (some [("a.js", "x")]))⟩ "T"
          (some "@ai create a button component")) "P1" =
      some [("a.js", "x")] := by
  refine ⟨by decide, by decide, by decide, ?_⟩
  exact (c1_ai_flow ⟨"s1", ⟨"u1", "u@x.com"⟩, "P1", true⟩ "P1"
    ⟨false, false, false, false,
      GenOutcome.ok (ParseOutcome.obj (some "done") (some [("a.js", "x")]))⟩
    "T" "@ai create a button component"
    (ParseOutcome.obj (some "done") (some [("a.js", "x")])) [("a.js", "x")]
    (by decide) (by decide) rfl (by decide) (by decide) rfl rfl).2
    (fun _ => none)

end Backend
